import Mathlib

/-!
Verification development for the FT flight-tracker backend
(`src/backend/config.py`, `src/backend/flight_data_service.py`,
`src/backend/mcp_flight_server.py`).

The Python code is shallowly embedded: JSON values are `JVal`, Python
exceptions are `PyError`, fallible code returns `Except PyError`, wall-clock
time is modelled in `ℚ`, and external effects (the HTTP response of an
attempt, the result of a client fetch) are explicit inputs to the embedded
functions.
-/

namespace FT

/-- A Python/JSON runtime value as it occurs in upstream payloads and in the
fields of the untyped `FlightData` dataclass.  `jint` models JSON integers,
`jnum` models floats; both are numbers, but the claims never depend on float
rounding so `ℚ` suffices for the float case. -/
inductive JVal where
  | jnull
  | jbool (b : Bool)
  | jint (n : Int)
  | jnum (q : ℚ)
  | jstr (s : String)
  | jlist (xs : List JVal)
  | jdict (kvs : List (String × JVal))

/-- The Python exceptions that the embedded code can raise. -/
inductive PyError where
  | typeError
  | indexError
  | keyError
  | nameError
  deriving DecidableEq, Repr

/-- Python `state[i]` with an integer index `i ≥ 0`: lists and strings are
indexable (`IndexError` past the end, indexing a string yields a one-character
string), subscripting a dict with an integer key raises `KeyError` (no integer
key is ever present in an upstream row object), and other values raise
`TypeError`. -/
def subscript (v : JVal) (i : Nat) : Except PyError JVal :=
  match v with
  | .jlist xs => if h : i < xs.length then .ok (xs.get ⟨i, h⟩) else .error .indexError
  | .jstr s => if h : i < s.data.length then .ok (.jstr (String.mk [s.data.get ⟨i, h⟩])) else .error .indexError
  | .jdict _ => .error .keyError
  | _ => .error .typeError

/-- Python truthiness (`not data`): `None`, `False`, zero, and empty
containers/strings are falsy. -/
def pyTruthy : JVal → Bool
  | .jnull => false
  | .jbool b => b
  | .jint n => decide (n ≠ 0)
  | .jnum q => decide (q ≠ 0)
  | .jstr s => decide (s ≠ "")
  | .jlist xs => !xs.isEmpty
  | .jdict kvs => !kvs.isEmpty

/-- Whether the character list given second starts with the one given
first. -/
def charsHasPre : List Char → List Char → Bool
  | [], _ => true
  | _ :: _, [] => false
  | a :: as, b :: bs => a == b && charsHasPre as bs

/-- Whether the second character list contains the first as a contiguous
substring (Python's `needle in haystack` on strings). -/
def charsHasSub (need : List Char) : List Char → Bool
  | [] => need.isEmpty
  | b :: bs => charsHasPre need (b :: bs) || charsHasSub need bs

/-- Python `key in data` for a string `key`: key membership for dicts,
element membership for lists (a non-string element never equals a string),
substring containment for strings, `TypeError` otherwise. -/
def pyContainsKey (d : JVal) (key : String) : Except PyError Bool :=
  match d with
  | .jdict kvs => .ok (kvs.any (fun kv => kv.1 = key))
  | .jlist xs => .ok (xs.any (fun x => match x with | .jstr s => s = key | _ => false))
  | .jstr s => .ok (charsHasSub key.data s.data)
  | _ => .error .typeError

/-- Python `data[key]` for a string `key`: dict lookup (`KeyError` when
absent), `TypeError` on every non-dict value (including lists and strings,
which reject string subscripts). -/
def pySubscriptKey (d : JVal) (key : String) : Except PyError JVal :=
  match d with
  | .jdict kvs =>
    match kvs.find? (fun kv => kv.1 = key) with
    | some kv => .ok kv.2
    | none => .error .keyError
  | _ => .error .typeError

/-- Python `for x in v`: lists iterate their elements, strings iterate their
one-character strings, dicts iterate their keys, anything else raises
`TypeError`. -/
def pyIter : JVal → Except PyError (List JVal)
  | .jlist xs => .ok xs
  | .jstr s => .ok (s.data.map (fun c => .jstr (String.mk [c])))
  | .jdict kvs => .ok (kvs.map (fun kv => .jstr kv.1))
  | _ => .error .typeError

/-- The `FlightData` dataclass of `flight_data_service.py` as it exists at
runtime: Python dataclasses do not check field types on construction, so every
field holds whatever `JVal` the corresponding row slot contained. -/
structure FlightDataR where
  icao24 : JVal
  callsign : JVal
  origin_country : JVal
  time_position : JVal
  last_contact : JVal
  longitude : JVal
  latitude : JVal
  baro_altitude : JVal
  on_ground : JVal
  velocity : JVal
  true_track : JVal
  vertical_rate : JVal
  sensors : JVal
  geo_altitude : JVal
  squawk : JVal
  spi : JVal
  position_source : JVal

/-- The argument evaluation of the `FlightData(icao24=state[0], ...)` call in
`OpenSkyAPIClient.get_states` (lines 128–146): the seventeen subscripts are
evaluated in order and the first exception aborts the construction; the
constructor itself performs no type check. -/
def buildRecord (state : JVal) : Except PyError FlightDataR :=
  Except.bind (subscript state 0) fun f0 =>
  Except.bind (subscript state 1) fun f1 =>
  Except.bind (subscript state 2) fun f2 =>
  Except.bind (subscript state 3) fun f3 =>
  Except.bind (subscript state 4) fun f4 =>
  Except.bind (subscript state 5) fun f5 =>
  Except.bind (subscript state 6) fun f6 =>
  Except.bind (subscript state 7) fun f7 =>
  Except.bind (subscript state 8) fun f8 =>
  Except.bind (subscript state 9) fun f9 =>
  Except.bind (subscript state 10) fun f10 =>
  Except.bind (subscript state 11) fun f11 =>
  Except.bind (subscript state 12) fun f12 =>
  Except.bind (subscript state 13) fun f13 =>
  Except.bind (subscript state 14) fun f14 =>
  Except.bind (subscript state 15) fun f15 =>
  Except.bind (subscript state 16) fun f16 =>
  Except.ok ⟨f0, f1, f2, f3, f4, f5, f6, f7, f8, f9, f10, f11, f12, f13, f14, f15, f16⟩

/-- One iteration of the row loop in `get_states` (lines 126–150): the
`try` block builds the record, `except (IndexError, TypeError)` skips the row
(result `none`); any other exception propagates. -/
def parseRow (state : JVal) : Except PyError (Option FlightDataR) :=
  match buildRecord state with
  | .ok fd => .ok (some fd)
  | .error .indexError => .ok none
  | .error .typeError => .ok none
  | .error e => .error e

/-- The whole row loop of `get_states`: rows are processed in order, skipped
rows contribute nothing, and an uncaught exception from a row aborts the
call. -/
def parseRows : List JVal → Except PyError (List FlightDataR)
  | [] => .ok []
  | r :: rs =>
    Except.bind (parseRow r) fun o =>
    Except.bind (parseRows rs) fun rest =>
    match o with
    | some fd => .ok (fd :: rest)
    | none => .ok rest

/-- `OpenSkyAPIClient.get_states` (lines 107–152) from the point where the
response payload is available: `data` is the value returned by
`_make_request` (`none` models Python `None`).  Mirrors
`if not data or 'states' not in data: return []` (with Python's
short-circuit evaluation) followed by the row loop over `data['states']`. -/
def get_states (data : Option JVal) : Except PyError (List FlightDataR) :=
  match data with
  | none => .ok []
  | some d =>
    if pyTruthy d = false then .ok []
    else
      Except.bind (pyContainsKey d "states") fun c =>
      if c = false then .ok []
      else
        Except.bind (pySubscriptKey d "states") fun sv =>
        Except.bind (pyIter sv) fun rows =>
        parseRows rows

/-- Modelled from the spec: the spec's notion of a row whose required fields
(`icao24`, `origin_country`, `last_contact`, `on_ground`, `spi`,
`position_source`) are all present with the declared types (strings, an
integer, booleans, an integer respectively).  Used only to state which rows
the specification says must be dropped; the source never performs this
check. -/
def requiredFieldsWellTyped (row : List JVal) : Bool :=
  decide (17 ≤ row.length) &&
  (match row.getD 0 .jnull with | .jstr _ => true | _ => false) &&
  (match row.getD 2 .jnull with | .jstr _ => true | _ => false) &&
  (match row.getD 4 .jnull with | .jint _ => true | _ => false) &&
  (match row.getD 8 .jnull with | .jbool _ => true | _ => false) &&
  (match row.getD 15 .jnull with | .jbool _ => true | _ => false) &&
  (match row.getD 16 .jnull with | .jint _ => true | _ => false)

/-- The record `get_states` builds from a row of at least 17 slots: field
`k` holds slot `k` verbatim. -/
def rowRecord (l : List JVal) (h : 17 ≤ l.length) : FlightDataR :=
  ⟨l.get ⟨0, by omega⟩, l.get ⟨1, by omega⟩, l.get ⟨2, by omega⟩, l.get ⟨3, by omega⟩,
   l.get ⟨4, by omega⟩, l.get ⟨5, by omega⟩, l.get ⟨6, by omega⟩, l.get ⟨7, by omega⟩,
   l.get ⟨8, by omega⟩, l.get ⟨9, by omega⟩, l.get ⟨10, by omega⟩, l.get ⟨11, by omega⟩,
   l.get ⟨12, by omega⟩, l.get ⟨13, by omega⟩, l.get ⟨14, by omega⟩, l.get ⟨15, by omega⟩,
   l.get ⟨16, by omega⟩⟩

/-- The `Config` dataclass of `config.py`, restricted to the numeric fields
the embedded core uses.  Python integer seconds that participate in
`time.time()` float arithmetic are modelled in `ℚ`. -/
structure Config where
  MIN_REQUEST_INTERVAL : ℚ
  MAX_RETRIES : Nat
  MAX_TRACKED_FLIGHTS : Nat
  FLIGHT_EXPIRY_TIME : ℚ
  DEFAULT_REFRESH_INTERVAL : ℚ

/-- The default field values of `Config` (`config.py` lines 12–19); none of
these fields is overridden by `Config.from_env`, so every run of the program
uses exactly these values. -/
def Config.default : Config :=
  { MIN_REQUEST_INTERVAL := 10
    MAX_RETRIES := 3
    MAX_TRACKED_FLIGHTS := 1000
    FLIGHT_EXPIRY_TIME := 300
    DEFAULT_REFRESH_INTERVAL := 30 }

/-- What the upstream does with one attempt of
`OpenSkyAPIClient._make_request`: answer HTTP 200 with a JSON body, answer
429, answer some other status, or make `session.get` raise a
`requests.exceptions.RequestException`. -/
inductive AttemptOutcome where
  | status200 (body : JVal)
  | rateLimited
  | otherStatus
  | requestException

/-- One scheduled attempt: how long `session.get` takes from dispatch until
the response (or the exception) arrives, and what happens then. -/
structure AttemptSpec where
  duration : ℚ
  outcome : AttemptOutcome

/-- The observable result of one `_make_request` call: the returned value
(`none` for Python `None`), the final `last_request_time`, the wall-clock
dispatch times of the outbound attempts in order, the time the call returns,
and whether the call returned from the `except` branch of its last permitted
attempt (the only exit that leaves `last_request_time` untouched by the whole
call). -/
structure AttemptsResult where
  ret : Option JVal
  last : ℚ
  dispatches : List ℚ
  endTime : ℚ
  finalException : Bool

/-- The retry loop of `_make_request` (lines 82–105).  `i` is the 0-based
`attempt` variable, `fuel` the number of iterations `range(max_retries)` still
has, `last` the current `self.last_request_time` and `t` the wall-clock time
at which the iteration starts (which is also the dispatch time of its
`session.get`).  On a response, `last_request_time` is set to the response
time (line 86); a 429 sleeps `min_interval * (attempt + 1)` and retries; a
non-200/429 status returns `None`; a `RequestException` leaves
`last_request_time` unchanged and either sleeps and retries or, on the last
attempt, returns `None`. -/
def runAttempts (cfg : Config) (specs : Nat → AttemptSpec) : Nat → Nat → ℚ → ℚ → AttemptsResult
  | _, 0, last, t => ⟨none, last, [], t, false⟩
  | i, fuel+1, last, t =>
    let tResp := t + (specs i).duration
    match (specs i).outcome with
    | .status200 body => ⟨some body, tResp, [t], tResp, false⟩
    | .otherStatus => ⟨none, tResp, [t], tResp, false⟩
    | .rateLimited =>
      let r := runAttempts cfg specs (i+1) fuel tResp (tResp + cfg.MIN_REQUEST_INTERVAL * ((i : ℚ) + 1))
      ⟨r.ret, r.last, t :: r.dispatches, r.endTime, r.finalException⟩
    | .requestException =>
      if fuel = 0 then ⟨none, last, [t], tResp, true⟩
      else
        let r := runAttempts cfg specs (i+1) fuel last (tResp + cfg.MIN_REQUEST_INTERVAL * ((i : ℚ) + 1))
        ⟨r.ret, r.last, t :: r.dispatches, r.endTime, r.finalException⟩

/-- The pacing check of `_make_request` (lines 76–80): when less than
`MIN_REQUEST_INTERVAL` has elapsed since `last_request_time`, sleep exactly
the remainder, so the dispatch happens at `last + MIN_REQUEST_INTERVAL`;
otherwise dispatch immediately at `t0`. -/
def paceTime (cfg : Config) (last t0 : ℚ) : ℚ :=
  if t0 - last < cfg.MIN_REQUEST_INTERVAL then last + cfg.MIN_REQUEST_INTERVAL else t0

/-- `OpenSkyAPIClient._make_request` (lines 74–105): the pacing wait, then
the retry loop.  `last` is the instance's `self.last_request_time` when the
call starts and `t0` the wall-clock time of the call. -/
def makeRequest (cfg : Config) (last t0 : ℚ) (specs : Nat → AttemptSpec) : AttemptsResult :=
  runAttempts cfg specs 0 cfg.MAX_RETRIES last (paceTime cfg last t0)

/-- One call in a sequence of `_make_request` calls on the same client
instance: the wall-clock time at which the call is made and the behaviour of
its attempts. -/
structure CallSpec where
  startTime : ℚ
  specs : Nat → AttemptSpec

/-- A sequence of `_make_request` calls on one client instance, threading
`self.last_request_time` through; returns the final `last_request_time` and
the concatenated dispatch times of all outbound requests. -/
def runCalls (cfg : Config) : ℚ → List CallSpec → ℚ × List ℚ
  | last, [] => (last, [])
  | last, c :: cs =>
    let r := makeRequest cfg last c.startTime c.specs
    let rest := runCalls cfg r.last cs
    (rest.1, r.dispatches ++ rest.2)

/-- Whether the retry loop, run with the given attempt behaviours from
attempt `i` with `fuel` iterations left, exits through the `except` branch of
its last permitted attempt.  This depends only on the outcomes, not on any
timing. -/
def exitsByLastException (specs : Nat → AttemptSpec) : Nat → Nat → Bool
  | _, 0 => false
  | i, fuel+1 =>
    match (specs i).outcome with
    | .status200 _ => false
    | .otherStatus => false
    | .rateLimited => exitsByLastException specs (i+1) fuel
    | .requestException => if fuel = 0 then true else exitsByLastException specs (i+1) fuel

/-- A `FlightData` value as stored by `FlightTracker` after a conforming
upstream row was parsed: the fields carry the types declared by the dataclass
(lines 14–33).  `last_contact` is the integer epoch-seconds field the expiry
sweep subtracts from `time.time()`; floats are modelled in `ℚ`. -/
structure FlightData where
  icao24 : String
  callsign : Option String
  origin_country : String
  time_position : Option Int
  last_contact : Int
  longitude : Option ℚ
  latitude : Option ℚ
  baro_altitude : Option ℚ
  on_ground : Bool
  velocity : Option ℚ
  true_track : Option ℚ
  vertical_rate : Option ℚ
  sensors : Option (List Int)
  geo_altitude : Option ℚ
  squawk : Option String
  spi : Bool
  position_source : Int
  deriving DecidableEq, Repr

/-- The `self.tracked_flights` dict, keyed by `icao24`.  Python dicts are
insertion ordered; an association list with unique keys models them. -/
abbrev Cache := List (String × FlightData)

/-- Python `icao24 in self.tracked_flights`. -/
def dictContains (m : Cache) (k : String) : Bool :=
  m.any (fun kv => kv.1 = k)

/-- Python `self.tracked_flights[k] = v`: overwrite in place when the key is
present, append otherwise. -/
def dictSet (m : Cache) (k : String) (v : FlightData) : Cache :=
  if dictContains m k then m.map (fun kv => if kv.1 = k then (k, v) else kv)
  else m ++ [(k, v)]

/-- Python `self.tracked_flights[k]` on a key known to be present (`none`
when absent, which the call sites guard against). -/
def dictGet (m : Cache) (k : String) : Option FlightData :=
  (m.find? (fun kv => kv.1 = k)).map (fun kv => kv.2)

/-- The upsert loop of `FlightTracker.start_tracking` (lines 194–195):
`for flight in flights: self.tracked_flights[flight.icao24] = flight`. -/
def upsertAll (m : Cache) (flights : List FlightData) : Cache :=
  flights.foldl (fun acc f => dictSet acc f.icao24 f) m

/-- The expiry sweep of `FlightTracker.start_tracking` (lines 199–206):
collect every key whose entry satisfies
`current_time - flight.last_contact > FLIGHT_EXPIRY_TIME`, then delete those
keys. -/
def sweep (cfg : Config) (m : Cache) (now : ℚ) : Cache :=
  let to_remove := (m.filter (fun kv => decide (cfg.FLIGHT_EXPIRY_TIME < now - (kv.2.last_contact : ℚ)))).map (fun kv => kv.1)
  to_remove.foldl (fun acc k => acc.filter (fun kv => kv.1 ≠ k)) m

/-- The mutable state of a `FlightTracker` instance (lines 173–178):
`tracking_task` records whether `self.tracking_task` is not `None`. -/
structure TrackerState where
  tracked_flights : Cache
  tracking_active : Bool
  tracking_task : Bool
  deriving DecidableEq, Repr

/-- A freshly constructed `FlightTracker`. -/
def initTracker : TrackerState :=
  { tracked_flights := [], tracking_active := false, tracking_task := false }

/-- `FlightTracker.get_flight_info` (lines 225–235): a cache hit returns the
entry; on a miss `self.client.get_flight_by_icao(icao24)` is consulted —
its result is the `clientResult` input — and a successful fetch is inserted
under the requested key before returning.  The source returns the record's
`to_dict()` serialization; the record itself is returned here. -/
def get_flight_info (st : TrackerState) (icao24 : String) (clientResult : Option FlightData) :
    Option FlightData × TrackerState :=
  if dictContains st.tracked_flights icao24 then
    (dictGet st.tracked_flights icao24, st)
  else
    match clientResult with
    | some flight =>
      (some flight, { st with tracked_flights := dictSet st.tracked_flights icao24 flight })
    | none => (none, st)

/-- What the client fetch inside a polling iteration does: return a list of
flights, or raise (a `requests` error, a parse error, ...). -/
inductive FetchResult where
  | ok (flights : List FlightData)
  | exn

/-- How one iteration of the `while self.tracking_active` loop ends. -/
inductive IterOutcome where
  | breakCapacity
  | raisedNameError
  deriving DecidableEq, Repr

/-- One iteration of the polling loop in `FlightTracker.start_tracking`
(lines 186–212).  If the cache already holds `MAX_TRACKED_FLIGHTS` entries
the iteration `break`s out of the loop (lines 188–190).  Otherwise the fetch
runs; on success every fetched flight is upserted and the expiry sweep runs.
`flight_data_service.py` never imports `asyncio`, so the
`await asyncio.sleep(interval)` on line 208 raises `NameError`; the
`except Exception` handler catches it (as it catches a fetch error), but its
own `await asyncio.sleep(interval)` on line 212 raises `NameError` again,
which propagates.  Hence every iteration that does not `break` ends with a
`NameError` escaping `start_tracking`, with the cache mutations already
applied. -/
def pollIteration (cfg : Config) (st : TrackerState) (fetch : FetchResult) (now : ℚ) :
    TrackerState × IterOutcome :=
  if cfg.MAX_TRACKED_FLIGHTS ≤ st.tracked_flights.length then
    (st, .breakCapacity)
  else
    match fetch with
    | .exn => (st, .raisedNameError)
    | .ok flights =>
      ({ st with tracked_flights := sweep cfg (upsertAll st.tracked_flights flights) now },
       .raisedNameError)

/-- How a `start_tracking` coroutine terminates. -/
inductive TrackResult where
  | returnedNormally (st : TrackerState)
  | raisedNameError (st : TrackerState)
  deriving DecidableEq, Repr

/-- `FlightTracker.start_tracking` (lines 180–212): set
`self.tracking_active = True`, then run the loop.  Because every
non-breaking iteration ends in the propagating `NameError` of line 212 (see
`pollIteration`), the loop never reaches a second iteration: the whole
coroutine either returns normally through the capacity `break` or raises
`NameError`, in both cases leaving `tracking_active` set. -/
def start_tracking (cfg : Config) (st : TrackerState) (fetch : FetchResult) (now : ℚ) :
    TrackResult :=
  let st0 := { st with tracking_active := true }
  match pollIteration cfg st0 fetch now with
  | (st', .breakCapacity) => .returnedNormally st'
  | (st', .raisedNameError) => .raisedNameError st'

/-- `FlightTracker.stop_tracking` (lines 214–219). -/
def stopTracking (st : TrackerState) : TrackerState :=
  let st1 := { st with tracking_active := false }
  if st1.tracking_task then { st1 with tracking_task := false } else st1

/-- One cache-mutating operation of the tracker: a polling-loop iteration, or
a read-through lookup issued by a request handler. -/
inductive TrackerOp where
  | poll (fetch : FetchResult) (now : ℚ)
  | lookup (icao24 : String) (clientResult : Option FlightData)

/-- Apply one tracker operation to the state. -/
def applyOp (cfg : Config) (st : TrackerState) : TrackerOp → TrackerState
  | .poll fetch now => (pollIteration cfg st fetch now).1
  | .lookup k r => (get_flight_info st k r).2

/-- Run a sequence of tracker operations from a given state. -/
def runOps (cfg : Config) (st : TrackerState) (ops : List TrackerOp) : TrackerState :=
  ops.foldl (applyOp cfg) st

/-- A `tools/call` reply of `MCPServer.call_tool` (lines 147–182): a success
envelope wrapping the handler's returned structure (the `json.dumps`
serialization into a text content block is abstracted away — the envelope
holds the structure itself), or an error envelope. -/
inductive Envelope where
  | success (result : JVal)
  | errorEnv (message : String)

/-- `MCPServer.start_continuous_tracking` (lines 253–274) wrapped in its
`call_tool` success envelope: when tracking is already active the reply is
`{"status": "already_running"}` and no task is created; otherwise a task
running `FlightTracker.start_tracking` is created (the returned `Bool` is
`true` exactly when `asyncio.create_task` was called) and the reply echoes
the derived square bounding box.  Note the handler itself does not set
`tracking_active`; the created task's coroutine does that when it first
runs. -/
def startContinuousTracking (st : TrackerState) (latitude longitude radius _interval : ℚ) :
    Envelope × TrackerState × Bool :=
  let min_lat := latitude - radius
  let max_lat := latitude + radius
  let min_lon := longitude - radius
  let max_lon := longitude + radius
  if st.tracking_active then
    (.success (.jdict [("status", .jstr "already_running")]), st, false)
  else
    (.success (.jdict
       [("status", .jstr "started"),
        ("area", .jdict
          [("min_lat", .jnum min_lat), ("max_lat", .jnum max_lat),
           ("min_lon", .jnum min_lon), ("max_lon", .jnum max_lon)])]),
     { st with tracking_task := true }, true)

/-- `MCPServer.stop_tracking` (lines 276–282) wrapped in its `call_tool`
success envelope: `{"status": "not_running"}` when tracking is inactive,
otherwise `FlightTracker.stop_tracking` runs and the reply is
`{"status": "stopped"}`. -/
def stopTrackingTool (st : TrackerState) : Envelope × TrackerState :=
  if st.tracking_active = false then
    (.success (.jdict [("status", .jstr "not_running")]), st)
  else
    (.success (.jdict [("status", .jstr "stopped")]), stopTracking st)

/-- Sample typed flight record used in concrete scenarios: identified by
`key`, last heard from at epoch second `lc`, all optional fields absent. -/
def mkFlight (key : String) (lc : Int) : FlightData :=
  { icao24 := key, callsign := none, origin_country := "", time_position := none,
    last_contact := lc, longitude := none, latitude := none, baro_altitude := none,
    on_ground := false, velocity := none, true_track := none, vertical_rate := none,
    sensors := none, geo_altitude := none, squawk := none, spi := false,
    position_source := 0 }

/-- A family of pairwise distinct `icao24` strings. -/
def natKey (n : Nat) : String :=
  String.mk (List.replicate n 'a')

/-- A single upstream batch of 1001 flights with pairwise distinct `icao24`
values, all reporting `last_contact = 0`. -/
def bigBatch : List FlightData :=
  (List.range 1001).map (fun i => mkFlight (natKey i) 0)

/-- A 17-element upstream row whose required fields `last_contact`,
`on_ground`, `spi` and `position_source` are `null` (missing values with the
wrong type). -/
def badRow : List JVal :=
  [.jstr "abc", .jnull, .jstr "US", .jnull, .jnull, .jnull, .jnull, .jnull, .jnull,
   .jnull, .jnull, .jnull, .jnull, .jnull, .jnull, .jnull, .jnull]

/-- A call whose every attempt fails instantly with a transport-level
`RequestException`. -/
def exnSpecs : Nat → AttemptSpec := fun _ => ⟨0, .requestException⟩

/-- A call whose first attempt instantly succeeds with an empty payload. -/
def okSpecs : Nat → AttemptSpec := fun _ => ⟨0, .status200 .jnull⟩

/-- The two-call scenario refuting the pacing claim: three transport-failed
attempts at times 100, 110, 130 (the first call never updates
`last_request_time`), then a second call made at the first call's return
time 130 dispatches immediately at 130. -/
def cexCalls : List CallSpec :=
  [⟨100, exnSpecs⟩, ⟨130, okSpecs⟩]

/-- Two well-behaved calls used to witness the amended pacing theorem. -/
def pacedCalls : List CallSpec :=
  [⟨100, okSpecs⟩, ⟨101, okSpecs⟩]

/-- A call whose every attempt instantly receives HTTP 429. -/
def rlSpecs : Nat → AttemptSpec := fun _ => ⟨0, .rateLimited⟩

/-- A two-entry cache with distinct keys, one fresh entry and one stale
entry (relative to sweep time 100 and the default 300-second expiry). -/
def sweepCache : Cache :=
  [("a", mkFlight "a" 0), ("b", mkFlight "b" (-1000))]

/-- A tracker at capacity for the small configuration
`⟨10, 3, 2, 300, 30⟩`, used to witness the capacity-break theorems. -/
def capTracker : TrackerState :=
  { tracked_flights := [("a", mkFlight "a" 0), ("b", mkFlight "b" 0)],
    tracking_active := false, tracking_task := false }

lemma except_bind_ok {ε α β : Type} (a : α) (f : α → Except ε β) :
    Except.bind (Except.ok a) f = f a := rfl

lemma except_bind_err {ε α β : Type} (e : ε) (f : α → Except ε β) :
    Except.bind (Except.error e) f = Except.error e := rfl

lemma except_bind_pure {ε α : Type} (m : Except ε α) :
    Except.bind m (fun x => Except.ok x) = m := by cases m <;> rfl

lemma subscript_jlist_lt (l : List JVal) (i : Nat) (h : i < l.length) :
    subscript (JVal.jlist l) i = .ok (l.get ⟨i, h⟩) := by
  simp [subscript, h]

lemma subscript_jlist_ge (l : List JVal) (i : Nat) (h : l.length ≤ i) :
    subscript (JVal.jlist l) i = .error .indexError := by
  simp only [subscript]
  rw [dif_neg (by omega)]

lemma buildRecord_of_17 (l : List JVal) (h : 17 ≤ l.length) :
    buildRecord (JVal.jlist l) = .ok (rowRecord l h) := by
  simp only [buildRecord,
    subscript_jlist_lt l 0 (by omega), subscript_jlist_lt l 1 (by omega),
    subscript_jlist_lt l 2 (by omega), subscript_jlist_lt l 3 (by omega),
    subscript_jlist_lt l 4 (by omega), subscript_jlist_lt l 5 (by omega),
    subscript_jlist_lt l 6 (by omega), subscript_jlist_lt l 7 (by omega),
    subscript_jlist_lt l 8 (by omega), subscript_jlist_lt l 9 (by omega),
    subscript_jlist_lt l 10 (by omega), subscript_jlist_lt l 11 (by omega),
    subscript_jlist_lt l 12 (by omega), subscript_jlist_lt l 13 (by omega),
    subscript_jlist_lt l 14 (by omega), subscript_jlist_lt l 15 (by omega),
    subscript_jlist_lt l 16 (by omega), except_bind_ok]
  rfl

lemma buildRecord_short (l : List JVal) (h : l.length < 17) :
    buildRecord (JVal.jlist l) = .error .indexError := by
  simp only [buildRecord]
  by_cases h0 : 0 < l.length
  case neg => rw [subscript_jlist_ge l 0 (by omega)]; rfl
  rw [subscript_jlist_lt l 0 h0, except_bind_ok]
  by_cases h1 : 1 < l.length
  case neg => rw [subscript_jlist_ge l 1 (by omega)]; rfl
  rw [subscript_jlist_lt l 1 h1, except_bind_ok]
  by_cases h2 : 2 < l.length
  case neg => rw [subscript_jlist_ge l 2 (by omega)]; rfl
  rw [subscript_jlist_lt l 2 h2, except_bind_ok]
  by_cases h3 : 3 < l.length
  case neg => rw [subscript_jlist_ge l 3 (by omega)]; rfl
  rw [subscript_jlist_lt l 3 h3, except_bind_ok]
  by_cases h4 : 4 < l.length
  case neg => rw [subscript_jlist_ge l 4 (by omega)]; rfl
  rw [subscript_jlist_lt l 4 h4, except_bind_ok]
  by_cases h5 : 5 < l.length
  case neg => rw [subscript_jlist_ge l 5 (by omega)]; rfl
  rw [subscript_jlist_lt l 5 h5, except_bind_ok]
  by_cases h6 : 6 < l.length
  case neg => rw [subscript_jlist_ge l 6 (by omega)]; rfl
  rw [subscript_jlist_lt l 6 h6, except_bind_ok]
  by_cases h7 : 7 < l.length
  case neg => rw [subscript_jlist_ge l 7 (by omega)]; rfl
  rw [subscript_jlist_lt l 7 h7, except_bind_ok]
  by_cases h8 : 8 < l.length
  case neg => rw [subscript_jlist_ge l 8 (by omega)]; rfl
  rw [subscript_jlist_lt l 8 h8, except_bind_ok]
  by_cases h9 : 9 < l.length
  case neg => rw [subscript_jlist_ge l 9 (by omega)]; rfl
  rw [subscript_jlist_lt l 9 h9, except_bind_ok]
  by_cases h10 : 10 < l.length
  case neg => rw [subscript_jlist_ge l 10 (by omega)]; rfl
  rw [subscript_jlist_lt l 10 h10, except_bind_ok]
  by_cases h11 : 11 < l.length
  case neg => rw [subscript_jlist_ge l 11 (by omega)]; rfl
  rw [subscript_jlist_lt l 11 h11, except_bind_ok]
  by_cases h12 : 12 < l.length
  case neg => rw [subscript_jlist_ge l 12 (by omega)]; rfl
  rw [subscript_jlist_lt l 12 h12, except_bind_ok]
  by_cases h13 : 13 < l.length
  case neg => rw [subscript_jlist_ge l 13 (by omega)]; rfl
  rw [subscript_jlist_lt l 13 h13, except_bind_ok]
  by_cases h14 : 14 < l.length
  case neg => rw [subscript_jlist_ge l 14 (by omega)]; rfl
  rw [subscript_jlist_lt l 14 h14, except_bind_ok]
  by_cases h15 : 15 < l.length
  case neg => rw [subscript_jlist_ge l 15 (by omega)]; rfl
  rw [subscript_jlist_lt l 15 h15, except_bind_ok]
  rw [subscript_jlist_ge l 16 (by omega)]; rfl

lemma parseRow_jlist_of_17 (l : List JVal) (h : 17 ≤ l.length) :
    parseRow (JVal.jlist l) = .ok (some (rowRecord l h)) := by
  simp [parseRow, buildRecord_of_17 l h]

lemma parseRow_jlist_short (l : List JVal) (h : l.length < 17) :
    parseRow (JVal.jlist l) = .ok none := by
  simp [parseRow, buildRecord_short l h]

/-- C4 (counterexample): the claim says a 17-field row whose required field
`last_contact` (and `on_ground`, `spi`, `position_source`) is null — missing
its value, hence mistyped — yields no record.  In fact `get_states` catches
only `IndexError`/`TypeError` and the dataclass constructor performs no type
check, so this row produces a record carrying the raw `null`s. -/
theorem mistyped_row_not_dropped_cex :
    requiredFieldsWellTyped badRow = false ∧
    parseRow (JVal.jlist badRow) =
      .ok (some ⟨.jstr "abc", .jnull, .jstr "US", .jnull, .jnull, .jnull, .jnull, .jnull,
                 .jnull, .jnull, .jnull, .jnull, .jnull, .jnull, .jnull, .jnull, .jnull⟩) :=
  ⟨rfl, rfl⟩

/-- C4 (amended): a row with fewer than 17 positional fields yields no
record (the positional decode raises `IndexError`, which is caught and the
row skipped), and likewise a non-subscriptable row such as `null`
(`TypeError`, also caught); but required-field types are never checked —
every row with at least 17 fields yields a record holding the raw slot
values, even when a required field is null or mistyped. -/
theorem parseRow_arity_cases (l : List JVal) :
    (l.length < 17 → parseRow (JVal.jlist l) = .ok none) ∧
    (∀ h : 17 ≤ l.length, parseRow (JVal.jlist l) = .ok (some (rowRecord l h))) ∧
    parseRow JVal.jnull = .ok none :=
  ⟨fun h => parseRow_jlist_short l h, fun h => parseRow_jlist_of_17 l h, rfl⟩

/-- Witness for `parseRow_arity_cases`: a 1-field row is dropped and a
17-field row (the all-null-required `badRow`) yields a record. -/
theorem parseRow_arity_cases_witness :
    parseRow (JVal.jlist [JVal.jnull]) = .ok none ∧
    parseRow (JVal.jlist badRow) = .ok (some (rowRecord badRow (by decide))) :=
  ⟨(parseRow_arity_cases [JVal.jnull]).1 (by decide),
   (parseRow_arity_cases badRow).2.1 (by decide)⟩

/-- C5 (counterexample): the claim says `get_states` returns the empty
sequence and never raises when the `'states'` value is not a list of rows.
For the payload `{"states": null}` the row loop `for state in data['states']`
raises `TypeError` (`None` is not iterable), which nothing catches. -/
theorem get_states_raises_cex :
    get_states (some (.jdict [("states", JVal.jnull)])) = .error .typeError := rfl

/-- C5 (amended): `get_states` returns the empty sequence when the payload
is absent, falsy, or a dict without a `'states'` key; but a truthy payload
whose `'states'` member is not iterable makes the row loop raise a
`TypeError` that propagates out of `get_states`. -/
theorem get_states_top_level_guard (data : Option JVal)
    (h : data = none ∨
         (∃ d, data = some d ∧ pyTruthy d = false) ∨
         (∃ kvs, data = some (.jdict kvs) ∧ kvs.any (fun kv => kv.1 = "states") = false)) :
    get_states data = .ok [] := by
  rcases h with h | ⟨d, rfl, hf⟩ | ⟨kvs, rfl, hany⟩
  · subst h; rfl
  · simp [get_states, hf]
  · by_cases ht : pyTruthy (JVal.jdict kvs) = false
    · simp [get_states, ht]
    · simp [get_states, ht, pyContainsKey, except_bind_ok, hany]

/-- Witness for `get_states_top_level_guard`: an absent payload, a falsy
payload and a dict payload without a `'states'` key all yield the empty
list. -/
theorem get_states_top_level_guard_witness :
    get_states none = .ok [] ∧
    get_states (some (.jint 0)) = .ok [] ∧
    get_states (some (.jdict [("time", .jint 7)])) = .ok [] :=
  ⟨get_states_top_level_guard none (Or.inl rfl),
   get_states_top_level_guard (some (.jint 0)) (Or.inr (Or.inl ⟨.jint 0, rfl, rfl⟩)),
   get_states_top_level_guard (some (.jdict [("time", .jint 7)]))
     (Or.inr (Or.inr ⟨[("time", .jint 7)], rfl, rfl⟩))⟩

/-- C9: a row with fewer than 17 positional fields is dropped from the batch
while every other row is processed exactly as it would be without it — in
particular all other valid rows are still parsed and returned. -/
theorem short_row_dropped_batch_preserved (xs ys : List JVal) (l : List JVal)
    (h : l.length < 17) :
    parseRows (xs ++ JVal.jlist l :: ys) = parseRows (xs ++ ys) := by
  induction xs with
  | nil =>
    simp only [List.nil_append, parseRows, parseRow_jlist_short l h, except_bind_ok]
    exact except_bind_pure _
  | cons x xs ih =>
    simp only [List.cons_append, parseRows, List.append_eq, ih]

/-- Witness for `short_row_dropped_batch_preserved`: dropping an empty row
between two 17-field rows leaves the parse of the remaining batch
unchanged. -/
theorem short_row_dropped_batch_preserved_witness :
    parseRows [JVal.jlist badRow, JVal.jlist [], JVal.jlist badRow] =
      parseRows [JVal.jlist badRow, JVal.jlist badRow] :=
  short_row_dropped_batch_preserved [JVal.jlist badRow] [JVal.jlist badRow] [] (by decide)

lemma foldl_filter_eq (ks : List String) : ∀ m : Cache,
    ks.foldl (fun acc k => acc.filter (fun kv => kv.1 ≠ k)) m
      = m.filter (fun kv => decide (kv.1 ∉ ks)) := by
  induction ks with
  | nil => intro m; simp
  | cons k ks ih =>
    intro m
    simp only [List.foldl_cons, ih, List.filter_filter]
    apply List.filter_congr
    intro kv _
    by_cases hk : kv.1 = k <;> by_cases hks : kv.1 ∈ ks <;>
      simp [hk, hks, List.mem_cons]

/-- C7: after an expiry sweep every surviving cache entry satisfies
`now - last_contact ≤ FLIGHT_EXPIRY_TIME`, and every entry the sweep removed
violated that bound at sweep time.  The hypothesis is the dict invariant
(one entry per key), which Python dicts guarantee. -/
theorem sweep_expiry_spec (cfg : Config) (m : Cache) (now : ℚ)
    (hkey : ∀ kv ∈ m, ∀ kv' ∈ m, kv.1 = kv'.1 → kv = kv') :
    (∀ kv ∈ sweep cfg m now, now - (kv.2.last_contact : ℚ) ≤ cfg.FLIGHT_EXPIRY_TIME) ∧
    (∀ kv ∈ m, kv ∉ sweep cfg m now →
       cfg.FLIGHT_EXPIRY_TIME < now - (kv.2.last_contact : ℚ)) := by
  have hs : sweep cfg m now
      = m.filter (fun kv => decide (kv.1 ∉
          (m.filter (fun kv => decide (cfg.FLIGHT_EXPIRY_TIME < now - (kv.2.last_contact : ℚ)))).map
            (fun kv => kv.1))) := by
    simp only [sweep, foldl_filter_eq]
  constructor
  · intro kv hkv
    rw [hs] at hkv
    obtain ⟨hm, hni⟩ := List.mem_filter.mp hkv
    by_contra hgt
    push_neg at hgt
    have : kv.1 ∈ (m.filter (fun kv => decide (cfg.FLIGHT_EXPIRY_TIME < now - (kv.2.last_contact : ℚ)))).map (fun kv => kv.1) :=
      List.mem_map_of_mem _ (List.mem_filter.mpr ⟨hm, by simpa using hgt⟩)
    simp only [decide_eq_true_eq] at hni
    exact hni this
  · intro kv hm hns
    rw [hs] at hns
    have hmem : kv.1 ∈ (m.filter (fun kv => decide (cfg.FLIGHT_EXPIRY_TIME < now - (kv.2.last_contact : ℚ)))).map (fun kv => kv.1) := by
      by_contra hni
      exact hns (List.mem_filter.mpr ⟨hm, by simpa using hni⟩)
    obtain ⟨kv', hkv', heq⟩ := List.mem_map.mp hmem
    obtain ⟨hm', hex⟩ := List.mem_filter.mp hkv'
    have : kv' = kv := hkey kv' hm' kv hm heq
    subst this
    simpa using hex

/-- Witness for `sweep_expiry_spec`: a two-entry cache at sweep time 100
with the default 300-second expiry; the fresh entry stays within the bound,
the stale one violated it. -/
theorem sweep_expiry_spec_witness :
    (∀ kv ∈ sweep Config.default sweepCache 100,
       (100 : ℚ) - (kv.2.last_contact : ℚ) ≤ Config.default.FLIGHT_EXPIRY_TIME) ∧
    (∀ kv ∈ sweepCache, kv ∉ sweep Config.default sweepCache 100 →
       Config.default.FLIGHT_EXPIRY_TIME < (100 : ℚ) - (kv.2.last_contact : ℚ)) :=
  sweep_expiry_spec Config.default sweepCache 100 (by decide)

/-- C2: evaluating the polling loop shows that an iteration does not survive
an error — and does not even survive a successful fetch.  Because
`flight_data_service.py` never imports `asyncio`, the `await
asyncio.sleep(interval)` in the `except` handler (line 212) raises
`NameError`, which propagates out of `start_tracking` and terminates the
loop; the claim says the loop waits and continues. -/
theorem tracking_error_propagates :
    start_tracking Config.default initTracker .exn 0
      = .raisedNameError { initTracker with tracking_active := true } ∧
    start_tracking Config.default initTracker (.ok []) 0
      = .raisedNameError { initTracker with tracking_active := true } :=
  ⟨rfl, rfl⟩

/-- C8: reporting of lifecycle misuse.  A start request while tracking is
active replies with a success envelope carrying status `already_running`,
leaves the state unchanged and creates no task; a stop request while
tracking is inactive replies with status `not_running`; and of two
consecutive stop requests the second always reports `not_running`. -/
theorem lifecycle_misuse_status (st : TrackerState) (lat lon rad itv : ℚ) :
    (st.tracking_active = true →
       startContinuousTracking st lat lon rad itv
         = (.success (.jdict [("status", .jstr "already_running")]), st, false)) ∧
    (st.tracking_active = false →
       stopTrackingTool st = (.success (.jdict [("status", .jstr "not_running")]), st)) ∧
    (stopTrackingTool (stopTrackingTool st).2).1
      = .success (.jdict [("status", .jstr "not_running")]) := by
  refine ⟨fun h => ?_, fun h => ?_, ?_⟩
  · simp [startContinuousTracking, h]
  · simp [stopTrackingTool, h]
  · by_cases h : st.tracking_active = false
    · simp [stopTrackingTool, h]
    · by_cases ht : st.tracking_task <;>
        simp [stopTrackingTool, stopTracking, h, ht]

/-- Witness for `lifecycle_misuse_status`: an active tracker answers a start
request with `already_running`; an inactive one answers a stop request with
`not_running`. -/
theorem lifecycle_misuse_status_witness :
    startContinuousTracking ⟨[], true, false⟩ 0 0 0 0
      = (.success (.jdict [("status", .jstr "already_running")]), ⟨[], true, false⟩, false) ∧
    stopTrackingTool ⟨[], false, false⟩
      = (.success (.jdict [("status", .jstr "not_running")]), ⟨[], false, false⟩) :=
  ⟨(lifecycle_misuse_status ⟨[], true, false⟩ 0 0 0 0).1 rfl,
   (lifecycle_misuse_status ⟨[], false, false⟩ 0 0 0 0).2.1 rfl⟩

/-- C10: a polling loop that terminates through the capacity `break`
returns normally with `tracking_active` still `true`.  Consequently every
subsequent start request replies `already_running` without creating a task
and without changing the state (so tracking stays unrestartable), while a
stop request replies `stopped` even though no loop is running. -/
theorem capacity_break_leaves_active (cfg : Config) (st : TrackerState)
    (fetch : FetchResult) (now lat lon rad itv : ℚ)
    (h : cfg.MAX_TRACKED_FLIGHTS ≤ st.tracked_flights.length) :
    start_tracking cfg st fetch now
      = .returnedNormally { st with tracking_active := true } ∧
    startContinuousTracking { st with tracking_active := true } lat lon rad itv
      = (.success (.jdict [("status", .jstr "already_running")]),
         { st with tracking_active := true }, false) ∧
    (stopTrackingTool { st with tracking_active := true }).1
      = .success (.jdict [("status", .jstr "stopped")]) := by
  refine ⟨?_, ?_, ?_⟩
  · simp [start_tracking, pollIteration, h]
  · simp [startContinuousTracking]
  · simp [stopTrackingTool]

/-- Witness for `capacity_break_leaves_active`: a tracker holding two
flights under a configuration with `MAX_TRACKED_FLIGHTS = 2`. -/
theorem capacity_break_leaves_active_witness :
    start_tracking ⟨10, 3, 2, 300, 30⟩ capTracker .exn 0
      = .returnedNormally { capTracker with tracking_active := true } ∧
    (stopTrackingTool { capTracker with tracking_active := true }).1
      = .success (.jdict [("status", .jstr "stopped")]) :=
  ⟨(capacity_break_leaves_active ⟨10, 3, 2, 300, 30⟩ capTracker .exn 0 0 0 0 0 (by decide)).1,
   (capacity_break_leaves_active ⟨10, 3, 2, 300, 30⟩ capTracker .exn 0 0 0 0 0 (by decide)).2.2⟩

lemma natKey_inj : Function.Injective natKey := by
  intro a b h
  have hd : List.replicate a 'a' = List.replicate b 'a' := congrArg String.data h
  have := congrArg List.length hd
  simpa using this

lemma dictContains_nil (k : String) : dictContains [] k = false := rfl

lemma dictSet_of_not_contains (m : Cache) (k : String) (v : FlightData)
    (h : dictContains m k = false) : dictSet m k v = m ++ [(k, v)] := by
  simp [dictSet, h]

lemma dictContains_append_single (m : Cache) (k : String) (v : FlightData) (x : String) :
    dictContains (m ++ [(k, v)]) x = (dictContains m x || decide (k = x)) := by
  simp [dictContains, List.any_append]

lemma upsertAll_length_fresh (flights : List FlightData) : ∀ m : Cache,
    (∀ f ∈ flights, dictContains m f.icao24 = false) →
    (flights.map (fun f => f.icao24)).Nodup →
    (upsertAll m flights).length = m.length + flights.length := by
  induction flights with
  | nil => intro m _ _; simp [upsertAll]
  | cons f fs ih =>
    intro m hfresh hnd
    have h1 : dictContains m f.icao24 = false := hfresh f (List.mem_cons_self f fs)
    have hnd' : (fs.map (fun g => g.icao24)).Nodup := (List.nodup_cons.mp hnd).2
    have hni : f.icao24 ∉ fs.map (fun g => g.icao24) := (List.nodup_cons.mp hnd).1
    have hfresh' : ∀ g ∈ fs, dictContains (m ++ [(f.icao24, f)]) g.icao24 = false := by
      intro g hg
      rw [dictContains_append_single]
      have hgm := hfresh g (List.mem_cons_of_mem f hg)
      have hne : f.icao24 ≠ g.icao24 := fun he => hni (he ▸ List.mem_map_of_mem _ hg)
      simp [hgm, hne]
    have hstep : upsertAll m (f :: fs) = upsertAll (m ++ [(f.icao24, f)]) fs := by
      simp [upsertAll, dictSet_of_not_contains m f.icao24 f h1]
    rw [hstep, ih (m ++ [(f.icao24, f)]) hfresh' hnd']
    simp
    omega

lemma mem_dictSet (kv : String × FlightData) (m : Cache) (k : String) (v : FlightData)
    (h : kv ∈ dictSet m k v) : kv ∈ m ∨ kv = (k, v) := by
  unfold dictSet at h
  split at h
  · obtain ⟨kv', hkv', heq⟩ := List.mem_map.mp h
    by_cases hk : kv'.1 = k
    · right
      rw [if_pos hk] at heq
      exact heq.symm
    · left
      rw [if_neg hk] at heq
      exact heq ▸ hkv'
  · rcases List.mem_append.mp h with h' | h'
    · exact Or.inl h'
    · exact Or.inr (by simpa using h')

lemma mem_upsertAll (flights : List FlightData) : ∀ (m : Cache) (kv : String × FlightData),
    kv ∈ upsertAll m flights → kv ∈ m ∨ kv.2 ∈ flights := by
  induction flights with
  | nil => intro m kv h; exact Or.inl (by simpa [upsertAll] using h)
  | cons f fs ih =>
    intro m kv h
    have hstep : upsertAll m (f :: fs) = upsertAll (dictSet m f.icao24 f) fs := by
      simp [upsertAll]
    rw [hstep] at h
    rcases ih (dictSet m f.icao24 f) kv h with h' | h'
    · rcases mem_dictSet kv m f.icao24 f h' with h'' | h''
      · exact Or.inl h''
      · right; rw [h'']; exact List.mem_cons_self f fs
    · exact Or.inr (List.mem_cons_of_mem f h')

lemma sweep_of_none_expired (cfg : Config) (m : Cache) (now : ℚ)
    (h : ∀ kv ∈ m, ¬ (cfg.FLIGHT_EXPIRY_TIME < now - (kv.2.last_contact : ℚ))) :
    sweep cfg m now = m := by
  unfold sweep
  have : m.filter (fun kv => decide (cfg.FLIGHT_EXPIRY_TIME < now - (kv.2.last_contact : ℚ))) = [] :=
    List.filter_eq_nil_iff.mpr (by intro kv hkv; simpa using h kv hkv)
  rw [this]
  rfl

/-- C1 (counterexample): the claim says the cache size never exceeds
`MAX_TRACKED_FLIGHTS` over any sequence of poll iterations and read-through
lookups.  Starting from a fresh tracker, a single poll iteration whose fetch
returns 1001 distinct flights upserts the entire batch — the capacity check
only runs at the start of an iteration — leaving 1001 > 1000 entries under
the program's default configuration. -/
theorem cache_capacity_exceeded_cex :
    Config.default.MAX_TRACKED_FLIGHTS <
      (runOps Config.default initTracker [TrackerOp.poll (.ok bigBatch) 0]).tracked_flights.length := by
  have hkeys : bigBatch.map (fun f => f.icao24) = (List.range 1001).map natKey := by
    simp only [bigBatch, List.map_map]
    rfl
  have hnd : (bigBatch.map (fun f => f.icao24)).Nodup := by
    rw [hkeys]
    exact (List.nodup_range 1001).map natKey_inj
  have hup := upsertAll_length_fresh bigBatch [] (fun f _ => rfl) hnd
  have hlen : bigBatch.length = 1001 := by simp [bigBatch]
  have hsweep : sweep Config.default (upsertAll [] bigBatch) 0 = upsertAll [] bigBatch := by
    apply sweep_of_none_expired
    intro kv hkv
    rcases mem_upsertAll bigBatch [] kv hkv with h | h
    · cases h
    · obtain ⟨i, _, hi⟩ := List.mem_map.mp h
      have hlc : kv.2.last_contact = 0 := by rw [← hi]; rfl
      rw [hlc]
      norm_num [Config.default]
  have hrun : (runOps Config.default initTracker [TrackerOp.poll (.ok bigBatch) 0]).tracked_flights
      = sweep Config.default (upsertAll [] bigBatch) 0 := by
    simp [runOps, applyOp, pollIteration, initTracker, upsertAll, Config.default]
  rw [hrun, hsweep, hup, hlen]
  norm_num [Config.default]

/-- C1 (amended): a poll iteration that begins with the cache at (or above)
`MAX_TRACKED_FLIGHTS` terminates the polling loop via `break` without
inserting anything; that per-iteration entry check is the only capacity
enforcement — an iteration that begins below capacity upserts its whole
batch unchecked, and read-through lookups insert with no capacity check at
all, so the size can exceed `MAX_TRACKED_FLIGHTS` (see the
counterexample). -/
theorem poll_at_capacity_breaks (cfg : Config) (st : TrackerState)
    (fetch : FetchResult) (now : ℚ)
    (h : cfg.MAX_TRACKED_FLIGHTS ≤ st.tracked_flights.length) :
    pollIteration cfg st fetch now = (st, .breakCapacity) := by
  simp [pollIteration, h]

/-- Witness for `poll_at_capacity_breaks`: a two-entry cache at capacity 2
makes the iteration break. -/
theorem poll_at_capacity_breaks_witness :
    pollIteration ⟨10, 3, 2, 300, 30⟩ capTracker (.ok bigBatch) 0
      = (capTracker, .breakCapacity) :=
  poll_at_capacity_breaks ⟨10, 3, 2, 300, 30⟩ capTracker (.ok bigBatch) 0 (by decide)

lemma runAttempts_zero (cfg : Config) (specs : Nat → AttemptSpec) (i : Nat) (last t : ℚ) :
    runAttempts cfg specs i 0 last t = ⟨none, last, [], t, false⟩ := rfl

lemma runAttempts_succ_200 (cfg : Config) (specs : Nat → AttemptSpec) (i fuel : Nat)
    (last t : ℚ) (body : JVal) (h : (specs i).outcome = .status200 body) :
    runAttempts cfg specs i (fuel+1) last t
      = ⟨some body, t + (specs i).duration, [t], t + (specs i).duration, false⟩ := by
  unfold runAttempts
  rw [h]

lemma runAttempts_succ_other (cfg : Config) (specs : Nat → AttemptSpec) (i fuel : Nat)
    (last t : ℚ) (h : (specs i).outcome = .otherStatus) :
    runAttempts cfg specs i (fuel+1) last t
      = ⟨none, t + (specs i).duration, [t], t + (specs i).duration, false⟩ := by
  unfold runAttempts
  rw [h]

lemma runAttempts_succ_429 (cfg : Config) (specs : Nat → AttemptSpec) (i fuel : Nat)
    (last t : ℚ) (h : (specs i).outcome = .rateLimited) :
    runAttempts cfg specs i (fuel+1) last t
      = (let r := runAttempts cfg specs (i+1) fuel (t + (specs i).duration)
                    (t + (specs i).duration + cfg.MIN_REQUEST_INTERVAL * ((i : ℚ) + 1));
         ⟨r.ret, r.last, t :: r.dispatches, r.endTime, r.finalException⟩) := by
  conv_lhs => unfold runAttempts
  rw [h]

lemma runAttempts_succ_exn (cfg : Config) (specs : Nat → AttemptSpec) (i fuel : Nat)
    (last t : ℚ) (h : (specs i).outcome = .requestException) :
    runAttempts cfg specs i (fuel+1) last t
      = (if fuel = 0 then ⟨none, last, [t], t + (specs i).duration, true⟩
         else
           (let r := runAttempts cfg specs (i+1) fuel last
                       (t + (specs i).duration + cfg.MIN_REQUEST_INTERVAL * ((i : ℚ) + 1));
            ⟨r.ret, r.last, t :: r.dispatches, r.endTime, r.finalException⟩)) := by
  conv_lhs => unfold runAttempts
  rw [h]

lemma runAttempts_finalException (cfg : Config) (specs : Nat → AttemptSpec) :
    ∀ (fuel i : Nat) (last t : ℚ),
      (runAttempts cfg specs i fuel last t).finalException = exitsByLastException specs i fuel := by
  intro fuel
  induction fuel with
  | zero => intro i last t; rfl
  | succ fuel ih =>
    intro i last t
    cases houtcome : (specs i).outcome with
    | status200 body =>
      rw [runAttempts_succ_200 cfg specs i fuel last t body houtcome]
      simp [exitsByLastException, houtcome]
    | otherStatus =>
      rw [runAttempts_succ_other cfg specs i fuel last t houtcome]
      simp [exitsByLastException, houtcome]
    | rateLimited =>
      rw [runAttempts_succ_429 cfg specs i fuel last t houtcome]
      simp only [exitsByLastException, houtcome, ih]
    | requestException =>
      rw [runAttempts_succ_exn cfg specs i fuel last t houtcome]
      by_cases hf : fuel = 0
      · simp [exitsByLastException, houtcome, hf]
      · simp only [exitsByLastException, houtcome, if_neg hf, ih]

lemma runAttempts_props (cfg : Config) (specs : Nat → AttemptSpec)
    (hmin : 0 ≤ cfg.MIN_REQUEST_INTERVAL) (hdur : ∀ j, 0 ≤ (specs j).duration) :
    ∀ (fuel i : Nat) (last t : ℚ),
      List.Pairwise (fun a b => a + cfg.MIN_REQUEST_INTERVAL ≤ b)
        (runAttempts cfg specs i fuel last t).dispatches ∧
      (∀ d ∈ (runAttempts cfg specs i fuel last t).dispatches, t ≤ d) ∧
      ((runAttempts cfg specs i fuel last t).finalException = false →
        (∀ d ∈ (runAttempts cfg specs i fuel last t).dispatches,
           d ≤ (runAttempts cfg specs i fuel last t).last) ∧
        ((runAttempts cfg specs i fuel last t).dispatches = [] →
           (runAttempts cfg specs i fuel last t).last = last)) ∧
      (fuel ≠ 0 → (runAttempts cfg specs i fuel last t).dispatches ≠ []) := by
  have harith : ∀ (i : Nat) (t : ℚ),
      t + cfg.MIN_REQUEST_INTERVAL
        ≤ t + (specs i).duration + cfg.MIN_REQUEST_INTERVAL * ((i : ℚ) + 1) := by
    intro i t
    have h1 : 0 ≤ cfg.MIN_REQUEST_INTERVAL * (i : ℚ) :=
      mul_nonneg hmin (by positivity)
    have h2 : cfg.MIN_REQUEST_INTERVAL * ((i : ℚ) + 1)
        = cfg.MIN_REQUEST_INTERVAL * (i : ℚ) + cfg.MIN_REQUEST_INTERVAL := by ring
    have h3 := hdur i
    linarith
  intro fuel
  induction fuel with
  | zero =>
    intro i last t
    rw [runAttempts_zero]
    exact ⟨List.Pairwise.nil, by simp, fun _ => ⟨by simp, fun _ => rfl⟩, fun h => absurd rfl h⟩
  | succ fuel ih =>
    intro i last t
    cases houtcome : (specs i).outcome with
    | status200 body =>
      rw [runAttempts_succ_200 cfg specs i fuel last t body houtcome]
      refine ⟨List.pairwise_singleton .., ?_, fun _ => ⟨?_, by simp⟩, fun _ => by simp⟩
      · intro d hd
        simp only [List.mem_singleton] at hd
        exact hd ▸ le_refl t
      · intro d hd
        simp only [List.mem_singleton] at hd
        subst hd
        have := hdur i
        simp only []
        linarith
    | otherStatus =>
      rw [runAttempts_succ_other cfg specs i fuel last t houtcome]
      refine ⟨List.pairwise_singleton .., ?_, fun _ => ⟨?_, by simp⟩, fun _ => by simp⟩
      · intro d hd
        simp only [List.mem_singleton] at hd
        exact hd ▸ le_refl t
      · intro d hd
        simp only [List.mem_singleton] at hd
        subst hd
        have := hdur i
        simp only []
        linarith
    | rateLimited =>
      rw [runAttempts_succ_429 cfg specs i fuel last t houtcome]
      simp only []
      obtain ⟨ihPW, ihLB, ihFE, ihNE⟩ :=
        ih (i+1) (t + (specs i).duration)
          (t + (specs i).duration + cfg.MIN_REQUEST_INTERVAL * ((i : ℚ) + 1))
      have ht' : t + cfg.MIN_REQUEST_INTERVAL
          ≤ t + (specs i).duration + cfg.MIN_REQUEST_INTERVAL * ((i : ℚ) + 1) := harith i t
      refine ⟨?_, ?_, ?_, fun _ => by simp⟩
      · refine List.pairwise_cons.mpr ⟨?_, ihPW⟩
        intro b hb
        have := ihLB b hb
        linarith
      · intro d hd
        rcases List.mem_cons.mp hd with heq | hd'
        · rw [heq]
        · have := ihLB d hd'
          have h0 := hdur i
          linarith [hmin]
      · intro hfe
        obtain ⟨ihUB, ihEmpty⟩ := ihFE hfe
        refine ⟨?_, by simp⟩
        intro d hd
        rcases List.mem_cons.mp hd with heq | hd'
        · rw [heq]
          rcases hds : (runAttempts cfg specs (i+1) fuel (t + (specs i).duration)
              (t + (specs i).duration + cfg.MIN_REQUEST_INTERVAL * ((i : ℚ) + 1))).dispatches with _ | ⟨d0, ds⟩
          · rw [ihEmpty hds]
            have := hdur i
            linarith
          · have hd0 : d0 ∈ (runAttempts cfg specs (i+1) fuel (t + (specs i).duration)
                (t + (specs i).duration + cfg.MIN_REQUEST_INTERVAL * ((i : ℚ) + 1))).dispatches := by
              rw [hds]
              exact List.mem_cons_self d0 ds
            have h1 := ihLB d0 hd0
            have h2 := ihUB d0 hd0
            linarith [hmin]
        · exact ihUB d hd'
    | requestException =>
      rw [runAttempts_succ_exn cfg specs i fuel last t houtcome]
      by_cases hf : fuel = 0
      · rw [if_pos hf]
        refine ⟨List.pairwise_singleton .., ?_, fun hfe => absurd hfe (by simp), fun _ => by simp⟩
        intro d hd
        simp only [List.mem_singleton] at hd
        exact hd ▸ le_refl t
      · rw [if_neg hf]
        simp only []
        obtain ⟨ihPW, ihLB, ihFE, ihNE⟩ :=
          ih (i+1) last
            (t + (specs i).duration + cfg.MIN_REQUEST_INTERVAL * ((i : ℚ) + 1))
        have ht' : t + cfg.MIN_REQUEST_INTERVAL
            ≤ t + (specs i).duration + cfg.MIN_REQUEST_INTERVAL * ((i : ℚ) + 1) := harith i t
        refine ⟨?_, ?_, ?_, fun _ => by simp⟩
        · refine List.pairwise_cons.mpr ⟨?_, ihPW⟩
          intro b hb
          have := ihLB b hb
          linarith
        · intro d hd
          rcases List.mem_cons.mp hd with heq | hd'
          · rw [heq]
          · have := ihLB d hd'
            linarith [hmin]
        · intro hfe
          obtain ⟨ihUB, ihEmpty⟩ := ihFE hfe
          refine ⟨?_, by simp⟩
          intro d hd
          rcases List.mem_cons.mp hd with heq | hd'
          · rw [heq]
            have hne := ihNE hf
            obtain ⟨d0, hd0⟩ := List.exists_mem_of_ne_nil _ hne
            have h1 := ihLB d0 hd0
            have h2 := ihUB d0 hd0
            linarith [hmin]
          · exact ihUB d hd'

lemma paceTime_ge (cfg : Config) (last t0 : ℚ) :
    last + cfg.MIN_REQUEST_INTERVAL ≤ paceTime cfg last t0 := by
  unfold paceTime
  split
  · exact le_refl _
  · next h =>
    push_neg at h
    linarith

lemma runCalls_props (cfg : Config) (hmin : 0 ≤ cfg.MIN_REQUEST_INTERVAL) :
    ∀ (calls : List CallSpec) (last0 : ℚ),
    (∀ c ∈ calls, ∀ j, 0 ≤ ((c.specs j).duration)) →
    (∀ c ∈ calls, exitsByLastException c.specs 0 cfg.MAX_RETRIES = false) →
    List.Pairwise (fun a b => a + cfg.MIN_REQUEST_INTERVAL ≤ b) (runCalls cfg last0 calls).2 ∧
    (∀ d ∈ (runCalls cfg last0 calls).2, last0 + cfg.MIN_REQUEST_INTERVAL ≤ d) ∧
    last0 ≤ (runCalls cfg last0 calls).1 ∧
    (∀ d ∈ (runCalls cfg last0 calls).2, d ≤ (runCalls cfg last0 calls).1) := by
  intro calls
  induction calls with
  | nil =>
    intro last0 _ _
    exact ⟨List.Pairwise.nil, by simp [runCalls], le_refl _, by simp [runCalls]⟩
  | cons c cs ih =>
    intro last0 hdur hgood
    have hdur0 : ∀ j, 0 ≤ ((c.specs j).duration) := hdur c (List.mem_cons_self c cs)
    have ht1 : last0 + cfg.MIN_REQUEST_INTERVAL ≤ paceTime cfg last0 c.startTime :=
      paceTime_ge cfg last0 c.startTime
    obtain ⟨hPW, hLB, hFE, _⟩ :=
      runAttempts_props cfg c.specs hmin hdur0 cfg.MAX_RETRIES 0 last0
        (paceTime cfg last0 c.startTime)
    have hfe : (runAttempts cfg c.specs 0 cfg.MAX_RETRIES last0
        (paceTime cfg last0 c.startTime)).finalException = false := by
      rw [runAttempts_finalException]
      exact hgood c (List.mem_cons_self c cs)
    obtain ⟨hUB, hEmpty⟩ := hFE hfe
    have hlastmono : last0 ≤ (runAttempts cfg c.specs 0 cfg.MAX_RETRIES last0
        (paceTime cfg last0 c.startTime)).last := by
      rcases hd : (runAttempts cfg c.specs 0 cfg.MAX_RETRIES last0
          (paceTime cfg last0 c.startTime)).dispatches with _ | ⟨d0, ds⟩
      · rw [hEmpty hd]
      · have h1 := hLB d0 (by rw [hd]; exact List.mem_cons_self d0 ds)
        have h2 := hUB d0 (by rw [hd]; exact List.mem_cons_self d0 ds)
        linarith
    obtain ⟨ihPW, ihLB, ihMono, ihUB⟩ :=
      ih (runAttempts cfg c.specs 0 cfg.MAX_RETRIES last0 (paceTime cfg last0 c.startTime)).last
        (fun c' hc' => hdur c' (List.mem_cons_of_mem c hc'))
        (fun c' hc' => hgood c' (List.mem_cons_of_mem c hc'))
    have hunfold : runCalls cfg last0 (c :: cs)
        = ((runCalls cfg (runAttempts cfg c.specs 0 cfg.MAX_RETRIES last0
              (paceTime cfg last0 c.startTime)).last cs).1,
           (runAttempts cfg c.specs 0 cfg.MAX_RETRIES last0
              (paceTime cfg last0 c.startTime)).dispatches ++
           (runCalls cfg (runAttempts cfg c.specs 0 cfg.MAX_RETRIES last0
              (paceTime cfg last0 c.startTime)).last cs).2) := rfl
    rw [hunfold]
    refine ⟨?_, ?_, ?_, ?_⟩
    · refine List.pairwise_append.mpr ⟨hPW, ihPW, ?_⟩
      intro a ha b hb
      have h1 := hUB a ha
      have h2 := ihLB b hb
      linarith
    · intro d hd
      rcases List.mem_append.mp hd with hd' | hd'
      · have := hLB d hd'
        linarith
      · have := ihLB d hd'
        linarith
    · exact le_trans hlastmono ihMono
    · intro d hd
      rcases List.mem_append.mp hd with hd' | hd'
      · exact le_trans (hUB d hd') ihMono
      · exact ihUB d hd'

lemma runAttempts_first_200 (cfg : Config) (specs : Nat → AttemptSpec) (body : JVal)
    (h0 : (specs 0).outcome = .status200 body) (last t : ℚ) :
    runAttempts cfg specs 0 3 last t
      = ⟨some body, t + (specs 0).duration, [t], t + (specs 0).duration, false⟩ :=
  runAttempts_succ_200 cfg specs 0 2 last t body h0

lemma runAttempts_three_429 (cfg : Config) (specs : Nat → AttemptSpec)
    (h0 : (specs 0).outcome = .rateLimited) (h1 : (specs 1).outcome = .rateLimited)
    (h2 : (specs 2).outcome = .rateLimited) (last t : ℚ) :
    runAttempts cfg specs 0 3 last t =
      ⟨none,
       t + (specs 0).duration + cfg.MIN_REQUEST_INTERVAL * 1 + (specs 1).duration
         + cfg.MIN_REQUEST_INTERVAL * 2 + (specs 2).duration,
       [t,
        t + (specs 0).duration + cfg.MIN_REQUEST_INTERVAL * 1,
        t + (specs 0).duration + cfg.MIN_REQUEST_INTERVAL * 1 + (specs 1).duration
          + cfg.MIN_REQUEST_INTERVAL * 2],
       t + (specs 0).duration + cfg.MIN_REQUEST_INTERVAL * 1 + (specs 1).duration
         + cfg.MIN_REQUEST_INTERVAL * 2 + (specs 2).duration + cfg.MIN_REQUEST_INTERVAL * 3,
       false⟩ := by
  refine (runAttempts_succ_429 cfg specs 0 2 last t h0).trans ?_
  simp only []
  rw [runAttempts_succ_429 cfg specs (0+1) 1 _ _ h1]
  simp only []
  rw [runAttempts_succ_429 cfg specs (0+1+1) 0 _ _ h2]
  simp only []
  rw [runAttempts_zero]
  simp only [AttemptsResult.mk.injEq, List.cons.injEq]
  push_cast
  repeat' apply And.intro
  all_goals first | rfl | ring_nf

lemma runAttempts_three_exn (cfg : Config) (specs : Nat → AttemptSpec)
    (h0 : (specs 0).outcome = .requestException) (h1 : (specs 1).outcome = .requestException)
    (h2 : (specs 2).outcome = .requestException) (last t : ℚ) :
    runAttempts cfg specs 0 3 last t =
      ⟨none, last,
       [t,
        t + (specs 0).duration + cfg.MIN_REQUEST_INTERVAL * 1,
        t + (specs 0).duration + cfg.MIN_REQUEST_INTERVAL * 1 + (specs 1).duration
          + cfg.MIN_REQUEST_INTERVAL * 2],
       t + (specs 0).duration + cfg.MIN_REQUEST_INTERVAL * 1 + (specs 1).duration
         + cfg.MIN_REQUEST_INTERVAL * 2 + (specs 2).duration,
       true⟩ := by
  refine (runAttempts_succ_exn cfg specs 0 2 last t h0).trans ?_
  rw [if_neg (by omega)]
  simp only []
  rw [runAttempts_succ_exn cfg specs (0+1) 1 _ _ h1, if_neg (by omega)]
  simp only []
  rw [runAttempts_succ_exn cfg specs (0+1+1) 0 _ _ h2, if_pos rfl]
  simp only [AttemptsResult.mk.injEq, List.cons.injEq]
  push_cast
  repeat' apply And.intro
  all_goals first | rfl | ring_nf

/-- C6: a call whose every attempt receives HTTP 429 performs exactly
`MAX_RETRIES = 3` outbound attempts, sleeps `MIN_REQUEST_INTERVAL ×
attempt_number` between attempts (dispatch `k+1` happens at dispatch `k`
plus that attempt's response latency plus `MIN_REQUEST_INTERVAL × (k+1)`),
then returns `None` without raising (in particular it does not return
through the exception path). -/
theorem makeRequest_all_rate_limited (specs : Nat → AttemptSpec)
    (h : ∀ i, (specs i).outcome = .rateLimited) (last t0 : ℚ) :
    (makeRequest Config.default last t0 specs).ret = none ∧
    (makeRequest Config.default last t0 specs).finalException = false ∧
    (makeRequest Config.default last t0 specs).dispatches.length
      = Config.default.MAX_RETRIES ∧
    (makeRequest Config.default last t0 specs).dispatches =
      [paceTime Config.default last t0,
       paceTime Config.default last t0 + (specs 0).duration
         + Config.default.MIN_REQUEST_INTERVAL * 1,
       paceTime Config.default last t0 + (specs 0).duration
         + Config.default.MIN_REQUEST_INTERVAL * 1 + (specs 1).duration
         + Config.default.MIN_REQUEST_INTERVAL * 2] := by
  have e : makeRequest Config.default last t0 specs
      = runAttempts Config.default specs 0 3 last (paceTime Config.default last t0) := rfl
  rw [e, runAttempts_three_429 Config.default specs (h 0) (h 1) (h 2) last
        (paceTime Config.default last t0)]
  exact ⟨rfl, rfl, rfl, rfl⟩

/-- Witness for `makeRequest_all_rate_limited`: the all-429 call with zero
latencies returns `None` after exactly `MAX_RETRIES` dispatches. -/
theorem makeRequest_all_rate_limited_witness :
    (makeRequest Config.default 0 0 rlSpecs).ret = none ∧
    (makeRequest Config.default 0 0 rlSpecs).dispatches.length
      = Config.default.MAX_RETRIES :=
  ⟨(makeRequest_all_rate_limited rlSpecs (fun _ => rfl) 0 0).1,
   (makeRequest_all_rate_limited rlSpecs (fun _ => rfl) 0 0).2.2.1⟩

/-- C3 (amended): over any sequence of calls on one client instance in
which no call returns through the `except` branch of its final attempt,
every two outbound dispatches are at least `MIN_REQUEST_INTERVAL` apart.
The restriction is forced: a call whose final attempt raises a
transport-level exception never updates `last_request_time`, so the next
call may dispatch immediately (see the counterexample). -/
theorem client_pacing_spaced (cfg : Config) (calls : List CallSpec) (last0 : ℚ)
    (hmin : 0 ≤ cfg.MIN_REQUEST_INTERVAL)
    (hdur : ∀ c ∈ calls, ∀ j, 0 ≤ ((c.specs j).duration))
    (hresp : ∀ c ∈ calls, exitsByLastException c.specs 0 cfg.MAX_RETRIES = false) :
    List.Pairwise (fun a b => a + cfg.MIN_REQUEST_INTERVAL ≤ b)
      (runCalls cfg last0 calls).2 :=
  (runCalls_props cfg hmin calls last0 hdur hresp).1

/-- Witness for `client_pacing_spaced`: two immediately successful calls
issued one second apart are dispatched at least `MIN_REQUEST_INTERVAL`
apart. -/
theorem client_pacing_spaced_witness :
    List.Pairwise (fun a b => a + Config.default.MIN_REQUEST_INTERVAL ≤ b)
      (runCalls Config.default 0 pacedCalls).2 := by
  refine client_pacing_spaced Config.default pacedCalls 0 (by norm_num [Config.default]) ?_ ?_
  · intro c hc j
    simp only [pacedCalls, List.mem_cons, List.not_mem_nil, or_false] at hc
    rcases hc with rfl | rfl <;> norm_num [okSpecs]
  · intro c hc
    simp only [pacedCalls, List.mem_cons, List.not_mem_nil, or_false] at hc
    rcases hc with rfl | rfl <;> rfl

/-- C3 (counterexample): the claim says no two outbound dispatches from one
client instance are ever less than `MIN_REQUEST_INTERVAL` apart, including
call sequences with transport-failed attempts.  A first call whose three
attempts all fail instantly with `RequestException` dispatches at 100, 110
and 130 but never updates `last_request_time` (still 0); a second call made
at its return time 130 passes the pacing check and dispatches immediately
at 130 — zero seconds after the previous dispatch. -/
theorem pacing_violation_cex :
    (runCalls Config.default 0 cexCalls).2 = [100, 110, 130, 130] ∧
    (makeRequest Config.default 0 100 exnSpecs).endTime = 130 ∧
    ¬ List.Pairwise (fun a b => a + Config.default.MIN_REQUEST_INTERVAL ≤ b)
        (runCalls Config.default 0 cexCalls).2 := by
  have hpA : paceTime Config.default 0 100 = 100 := by
    unfold paceTime
    norm_num [Config.default]
  have hA : makeRequest Config.default 0 100 exnSpecs
      = ⟨none, 0, [100, 110, 130], 130, true⟩ := by
    have e : makeRequest Config.default 0 100 exnSpecs
        = runAttempts Config.default exnSpecs 0 3 0 (paceTime Config.default 0 100) := rfl
    rw [e, hpA, runAttempts_three_exn Config.default exnSpecs rfl rfl rfl 0 100]
    simp only [AttemptsResult.mk.injEq, List.cons.injEq]
    norm_num [exnSpecs, Config.default]
  have hpB : paceTime Config.default 0 130 = 130 := by
    unfold paceTime
    norm_num [Config.default]
  have hB : makeRequest Config.default 0 130 okSpecs
      = ⟨some .jnull, 130, [130], 130, false⟩ := by
    have e : makeRequest Config.default 0 130 okSpecs
        = runAttempts Config.default okSpecs 0 3 0 (paceTime Config.default 0 130) := rfl
    rw [e, hpB, runAttempts_first_200 Config.default okSpecs .jnull rfl 0 130]
    simp only [AttemptsResult.mk.injEq, List.cons.injEq]
    norm_num [okSpecs]
  have hds : (runCalls Config.default 0 cexCalls).2 = [100, 110, 130, 130] := by
    show (runCalls Config.default 0 [⟨100, exnSpecs⟩, ⟨130, okSpecs⟩]).2 = _
    simp only [runCalls, hA, hB]
    rfl
  refine ⟨hds, ?_, ?_⟩
  · rw [hA]
  · rw [hds]
    intro hPW
    have h1 := (List.pairwise_cons.mp hPW).2
    have h2 := (List.pairwise_cons.mp h1).2
    have h3 := (List.pairwise_cons.mp h2).1
    have h4 := h3 130 (by simp)
    norm_num [Config.default] at h4

end FT
